import Mathlib

/-!
Verification development for the docr repository.

Shallow embedding of `benchmark_olmocr.py` (the OCR benchmark script: engine
invocation wrappers `test_ollama_ocr`, `test_nougat_cli` and the quality check
`analyze_output`) and of `src/smart_ocr/core/document.py` (the `PageImage` and
`Document` data model with `from_pdf`, `get_page` and `classify`).

Python strings are modelled as `String`; the list-based helpers below mirror
Python's `str.startswith`, `str.split`, `str.strip`, `str.lower`, substring
membership (`in`) and `pathlib.Path.name`, using structural recursion so that
every definition evaluates inside the kernel.  Python `float` results coming
from integer arithmetic are modelled as `ℚ`.  Filesystem state is explicit:
a set of existing file paths is a `List String`, and file sizes are supplied
by a lookup `String → Option Nat` (`None` meaning the path does not exist).
-/

set_option autoImplicit false

/-- Python `s.startswith(pre)`, via the character lists of the strings. -/
def startswith (s pre : String) : Bool :=
  pre.toList.isPrefixOf s.toList

/-- Python `s.endswith(suf)`, via the character lists of the strings. -/
def endswith (s suf : String) : Bool :=
  suf.toList.isSuffixOf s.toList

/-- Python substring membership `kw in s` on character lists. -/
def has_substr (kw : List Char) : List Char → Bool
  | [] => kw.isPrefixOf []
  | c :: rest => kw.isPrefixOf (c :: rest) || has_substr kw rest

/-- Python `kw in s` for strings. -/
def str_in (kw s : String) : Bool :=
  has_substr kw.toList s.toList

/-- Split a character list at every character satisfying `p`, keeping empty
pieces, as Python `str.split(sep)` does for a one-character separator. -/
def split_on_pred (p : Char → Bool) : List Char → List (List Char)
  | [] => [[]]
  | c :: rest =>
    if p c then [] :: split_on_pred p rest
    else
      match split_on_pred p rest with
      | [] => [[c]]
      | h :: t => (c :: h) :: t

/-- Python `s.strip()`: drop whitespace from both ends. -/
def strip_chars (l : List Char) : List Char :=
  ((l.dropWhile Char.isWhitespace).reverse.dropWhile Char.isWhitespace).reverse

/-- Python `s.strip()` on strings. -/
def strip_str (s : String) : String :=
  String.mk (strip_chars s.toList)

/-- Python `s.lower()`, mapping `Char.toLower` over the characters. -/
def lower_str (s : String) : String :=
  String.mk (s.toList.map Char.toLower)

/-- Python `pathlib.Path(p).name`: the part after the last slash. -/
def last_component (s : String) : String :=
  String.mk ((split_on_pred (fun c => c == '/') s.toList).getLastD [])

/- ------------------------------------------------------------------
`benchmark_olmocr.py`: `analyze_output`
------------------------------------------------------------------ -/

/-- The dict returned by `analyze_output` in `benchmark_olmocr.py`. -/
structure OutputAnalysis where
  status : String
  chars : Nat
  words : Nat
  lines : Nat
  has_equations : Bool
deriving DecidableEq

/-- The marker characters `['\\', '$', '=', '∑', '∫']` tested by
`analyze_output` for `has_equations`. -/
def equation_chars : List Char := ['\\', '$', '=', '∑', '∫']

/-- `analyze_output` from `benchmark_olmocr.py` (lines 112–132): the failure
branch fires iff the text starts with `"ERROR"` or equals `"TIMEOUT"`;
otherwise the raw character / word / line counts and the equation-marker flag
are reported with status `"success"`. -/
def analyze_output (text : String) : OutputAnalysis :=
  if startswith text ("ERROR") = true ∨ text = ("TIMEOUT") then
    ⟨("failed"), 0, 0, 0, false⟩
  else
    ⟨("success"),
      text.length,
      ((split_on_pred Char.isWhitespace text.toList).filter (fun w => !w.isEmpty)).length,
      (split_on_pred (fun c => c == '\n') (strip_chars text.toList)).length,
      equation_chars.any (fun c => text.toList.contains c)⟩

/- ------------------------------------------------------------------
`benchmark_olmocr.py`: `test_ollama_ocr` and `test_nougat_cli`
------------------------------------------------------------------ -/

/-- Outcome of the `subprocess.run` call inside the `try` block: the process
completed (with a return code, stdout and stderr), `subprocess.TimeoutExpired`
was raised, or some other exception was raised (carrying its message). -/
inductive RunOutcome where
  | completed (returncode : Int) (stdout : String) (stderr : String)
  | timedOut
  | excRaised (msg : String)

/-- `test_ollama_ocr` (lines 23–57).  `fs` is the set of files existing before
the call and `tmp_name` the name handed out by `NamedTemporaryFile`, which
creates the page-image file; `elapsed` is the measured wall time of the run.
Every branch of the source calls `tmp_path.unlink()` before returning, so the
returned filesystem is `(tmp_name :: fs).erase tmp_name` on every path. -/
def test_ollama_ocr (fs : List String) (tmp_name : String) (outcome : RunOutcome)
    (elapsed : ℚ) : (String × ℚ) × List String :=
  let fs1 := tmp_name :: fs
  match outcome with
  | RunOutcome.completed rc out err =>
      ((if rc ≠ 0 then ("ERROR: ") ++ err else strip_str out, elapsed),
        fs1.erase tmp_name)
  | RunOutcome.timedOut =>
      ((("TIMEOUT"), (120 : ℚ)), fs1.erase tmp_name)
  | RunOutcome.excRaised msg =>
      ((("ERROR: ") ++ msg, (0 : ℚ)), fs1.erase tmp_name)

/-- Lookup of a produced output file by name: `produced` is the list of
`(filename, contents)` pairs the backend wrote into the temporary directory. -/
def lookup_file (produced : List (String × String)) (name : String) : Option String :=
  (produced.find? (fun f => f.1 == name)).map (fun f => f.2)

/-- The `(text, elapsed)` pair computed inside the `with TemporaryDirectory`
block of `test_nougat_cli` (lines 60–109): non-zero return code gives an
`"ERROR: "` message, otherwise the output file is looked up as
`{stem}.md`, then `{stem.split('.')[0]}.md`, then the first `*.md` glob hit,
and finally an `"ERROR: No output file found"` message. -/
def nougat_result (tmpdir stem : String) (produced : List (String × String))
    (outcome : RunOutcome) (elapsed : ℚ) : String × ℚ :=
  match outcome with
  | RunOutcome.completed rc _out err =>
    if rc ≠ 0 then ((("ERROR: ") ++ err), elapsed)
    else
      match lookup_file produced (stem ++ (".md")) with
      | some text => (text, elapsed)
      | none =>
        match lookup_file produced
            ((String.mk ((split_on_pred (fun c => c == '.') stem.toList).headD [])) ++ (".md")) with
        | some text => (text, elapsed)
        | none =>
          match produced.filter (fun f => endswith f.1 (".md")) with
          | f :: _ => (f.2, elapsed)
          | [] => ((("ERROR: No output file found in ") ++ tmpdir), elapsed)
  | RunOutcome.timedOut => ((("TIMEOUT"), (120 : ℚ)))
  | RunOutcome.excRaised msg => ((("ERROR: ") ++ msg, (0 : ℚ)))

/-- `test_nougat_cli` (lines 60–109).  Entering `with TemporaryDirectory`
creates `tmpdir`; the backend writes `produced` inside it; leaving the block
removes the whole tree on every exit path, so no path under `tmpdir` survives
in the returned filesystem. -/
def test_nougat_cli (fs : List String) (tmpdir stem : String)
    (produced : List (String × String)) (outcome : RunOutcome) (elapsed : ℚ) :
    (String × ℚ) × List String :=
  let fs_during := tmpdir :: (produced.map (fun f => tmpdir ++ ("/") ++ f.1)) ++ fs
  let fs_after := fs_during.filter (fun q => !(startswith q tmpdir))
  (nougat_result tmpdir stem produced outcome elapsed, fs_after)

/- ------------------------------------------------------------------
`src/smart_ocr/core/document.py`: data model
------------------------------------------------------------------ -/

/-- `DocumentType` enum (lines 11–17). -/
inductive DocumentType where
  | academic
  | policy
  | financial
  | general
deriving DecidableEq

/-- A PIL image, reduced to the pixel dimensions `Image.size` exposes. -/
structure Img where
  width : Nat
  height : Nat
deriving DecidableEq

/-- `PageImage` dataclass (lines 20–40): page number, optional image, and the
width/height fields (dataclass defaults 0). -/
structure PageImage where
  page_num : Int
  image : Option Img
  width : Nat
  height : Nat
deriving DecidableEq

/-- `PageImage` construction including `__post_init__`: when an image is
present, `width`/`height` are set to the image's pixel dimensions. -/
def mk_page_image (n : Int) (img : Option Img) : PageImage :=
  match img with
  | some im => ⟨n, some im, im.width, im.height⟩
  | none => ⟨n, none, 0, 0⟩

/-- `PageImage.aspect_ratio` (lines 33–36): `width / max(height, 1)`. -/
def aspect_ratio (p : PageImage) : ℚ :=
  (p.width : ℚ) / ((max p.height 1 : Nat) : ℚ)

/-- `PageImage.is_landscape` (lines 38–40): `width > height`. -/
def is_landscape (p : PageImage) : Bool :=
  decide (p.width > p.height)

/-- `pathlib.Path`, reduced to the string it wraps. -/
structure PyPath where
  s : String
deriving DecidableEq

/-- A `Path | str` argument as Python's `isinstance` check sees it. -/
inductive PathLike where
  | str (s : String)
  | path (p : PyPath)
deriving DecidableEq

/-- The `isinstance(self.path, str)` conversion in `Document.__post_init__`:
a string becomes a `Path`, a `Path` stays as given. -/
def to_py_path : PathLike → PyPath
  | PathLike.str s => PyPath.mk s
  | PathLike.path q => q

/-- `Document` dataclass (lines 43–51). -/
structure Document where
  path : PyPath
  pages : List PageImage
  doc_type : DocumentType
  detected_features : List String
  file_size_mb : ℚ
deriving DecidableEq

/-- `Document` construction including `__post_init__` (lines 53–57): string
paths are converted to `Path`, and `_file_size_mb` is set from the file's
size when the path exists and stays `0.0` otherwise.  `fs` maps an existing
path to its size in bytes. -/
def mk_document (fs : String → Option Nat) (p : PathLike) (pages : List PageImage)
    (dt : DocumentType) (features : List String) : Document :=
  let fp := to_py_path p
  let size : ℚ :=
    match fs fp.s with
    | some bytes => (bytes : ℚ) / ((1024 : ℚ) * 1024)
    | none => 0
  ⟨fp, pages, dt, features, size⟩

/-- `Document.filename` property (lines 59–62), in state-passing form: the
method reads `self.path.name` and leaves the document untouched. -/
def Document.filename (d : Document) : String × Document :=
  (last_component d.path.s, d)

/-- `Document.num_pages` property (lines 64–67), state-passing form. -/
def Document.num_pages (d : Document) : Nat × Document :=
  (d.pages.length, d)

/-- `Document.size_mb` property (lines 69–72), state-passing form. -/
def Document.size_mb (d : Document) : ℚ × Document :=
  (d.file_size_mb, d)

/-- `Document.get_page` (lines 74–79), state-passing form: return the first
page whose `page_num` equals the argument, or `None`. -/
def Document.get_page (d : Document) (n : Int) : Option PageImage × Document :=
  (d.pages.find? (fun q => q.page_num == n), d)

/- ------------------------------------------------------------------
`src/smart_ocr/core/document.py`: `from_pdf`
------------------------------------------------------------------ -/

/-- A PyMuPDF page: its mediabox rectangle and the pixmap obtained when
rendering at a given DPI (`get_pixmap` with `Matrix(dpi/72, dpi/72)`). -/
structure PdfPage where
  rect_width : ℚ
  rect_height : ℚ
  pixmap : Nat → Img

/-- A PyMuPDF document: its ordered pages. -/
structure Pdf where
  pages : List PdfPage

/-- `Document._auto_detect_dpi` (lines 118–145): dense reports (more than 50
pages) get 200 DPI; otherwise 150 DPI (the landscape branch also yields 150). -/
def auto_detect_dpi (pdf : Pdf) : Nat :=
  let page_count := pdf.pages.length
  let is_land : Bool :=
    match pdf.pages with
    | [] => false
    | first :: _ => decide (first.rect_width > first.rect_height)
  if page_count > 50 then 200
  else if is_land then 150
  else 150

/-- The `render_dpi: int | str = "auto"` argument of `from_pdf`. -/
inductive RenderDpi where
  | auto
  | explicit (n : Nat)

/-- The DPI dispatch at lines 99–102 of `from_pdf`: `"auto"` runs the
auto-detection, anything else is used as the literal value. -/
def resolve_dpi (render_dpi : RenderDpi) (pdf : Pdf) : Nat :=
  match render_dpi with
  | RenderDpi.auto => auto_detect_dpi pdf
  | RenderDpi.explicit k => k

/-- The page loop of `from_pdf` (lines 106–113): for list position `i`
(starting at `i = 0` like `range(len(pdf))`), render the pixmap and append
`PageImage(page_num=i+1, image=img)`. -/
def render_pages (dpi : Nat) : Nat → List PdfPage → List PageImage
  | _, [] => []
  | i, pg :: rest =>
      mk_page_image ((i : Int) + 1) (some (pg.pixmap dpi)) :: render_pages dpi (i + 1) rest

/-- `Document.from_pdf` (lines 81–116): convert the path, construct the
document, resolve the DPI, record the `render_dpi` feature tag, and fill the
pages from the rendering loop. -/
def Document.from_pdf (fs : String → Option Nat) (path : PathLike)
    (render_dpi : RenderDpi) (pdf : Pdf) : Document :=
  let fp := to_py_path path
  let doc := mk_document fs (PathLike.path fp) [] DocumentType.general []
  let dpi := resolve_dpi render_dpi pdf
  let doc2 : Document :=
    { doc with detected_features := doc.detected_features ++ [("render_dpi=") ++ toString dpi] }
  { doc2 with pages := render_pages dpi 0 pdf.pages }

/- ------------------------------------------------------------------
`src/smart_ocr/core/document.py`: `classify`
------------------------------------------------------------------ -/

/-- Academic filename keywords (line 153). -/
def academic_keywords : List String :=
  ["paper", "article", "journal", "arxiv", "nber", "working"]

/-- Policy filename keywords (line 159). -/
def policy_keywords : List String :=
  ["policy", "report", "fed", "ecb", "imf", "oecd"]

/-- Financial filename keywords (line 165). -/
def financial_keywords : List String :=
  ["financial", "annual", "quarterly", "10k", "10q"]

/-- The academic indicator test of `classify`, on the lowered filename. -/
def acad_cond (filename_lower : String) : Bool :=
  academic_keywords.any (fun kw => str_in kw filename_lower)

/-- The policy indicator test of `classify`, on the lowered filename. -/
def policy_cond (filename_lower : String) : Bool :=
  policy_keywords.any (fun kw => str_in kw filename_lower)

/-- The financial indicator test of `classify`, on the lowered filename. -/
def fin_cond (filename_lower : String) : Bool :=
  financial_keywords.any (fun kw => str_in kw filename_lower)

/-- `Document.classify` (lines 147–170), state-passing form: test the lowered
filename against the three keyword groups in order; a hit sets `doc_type`,
appends the matching feature tag and returns the new type; otherwise the
current `doc_type` is returned and the document is unchanged. -/
def Document.classify (d : Document) : DocumentType × Document :=
  let filename_lower := lower_str (Document.filename d).1
  if acad_cond filename_lower = true then
    let d2 : Document :=
      { d with
        doc_type := DocumentType.academic
        detected_features := d.detected_features ++ [("academic_filename")] }
    (d2.doc_type, d2)
  else if policy_cond filename_lower = true then
    let d2 : Document :=
      { d with
        doc_type := DocumentType.policy
        detected_features := d.detected_features ++ [("policy_filename")] }
    (d2.doc_type, d2)
  else if fin_cond filename_lower = true then
    let d2 : Document :=
      { d with
        doc_type := DocumentType.financial
        detected_features := d.detected_features ++ [("financial_filename")] }
    (d2.doc_type, d2)
  else (d.doc_type, d)

/-- Whether any keyword group matches the document's lowered filename, i.e.
whether a call to `classify` takes one of the three assigning branches. -/
def doc_matched (d : Document) : Bool :=
  acad_cond (lower_str (Document.filename d).1)
    || policy_cond (lower_str (Document.filename d).1)
    || fin_cond (lower_str (Document.filename d).1)

/- ------------------------------------------------------------------
Helper lemmas
------------------------------------------------------------------ -/

/-- The success branch of `analyze_output`: when the text neither starts with
`"ERROR"` nor equals `"TIMEOUT"`, the result is the raw-count record. -/
theorem analyze_output_success (text : String)
    (h1 : startswith text ("ERROR") = false) (h2 : text ≠ ("TIMEOUT")) :
    analyze_output text =
      ⟨("success"),
        text.length,
        ((split_on_pred Char.isWhitespace text.toList).filter (fun w => !w.isEmpty)).length,
        (split_on_pred (fun c => c == '\n') (strip_chars text.toList)).length,
        equation_chars.any (fun c => text.toList.contains c)⟩ := by
  unfold analyze_output
  rw [if_neg]
  intro hc
  cases hc with
  | inl hl => rw [h1] at hl; exact Bool.false_ne_true hl
  | inr hr => exact h2 hr

/-- A string of `n` repeated letters `a` never starts with `"ERROR"`. -/
theorem replicate_not_error (n : Nat) :
    startswith (String.mk (List.replicate n ('a'))) ("ERROR") = false := by
  cases n with
  | zero => rfl
  | succ m => rfl

/-- A string of repeated letters `a` is never the string `"TIMEOUT"`. -/
theorem replicate_not_timeout (n : Nat) :
    String.mk (List.replicate n ('a')) ≠ ("TIMEOUT") := by
  intro he
  have hd : List.replicate n ('a') = ("TIMEOUT").toList := congrArg String.toList he
  cases n with
  | zero => exact absurd hd (by decide)
  | succ m =>
    have hh : ('a' : Char) = 'T' := congrArg (fun l => l.headD ('x')) hd
    exact absurd hh (by decide)

/- ------------------------------------------------------------------
Claim C1
------------------------------------------------------------------ -/

/-- Claim C1 counterexample: the empty output text is NOT rejected by
`analyze_output` — it is reported with status `"success"` (and a line count
of 1), so neither the empty-output rejection nor the implausible-length
rejection stated by the claim exists in the code. -/
theorem analyze_output_empty_not_rejected :
    (analyze_output ("")).status = ("success") ∧
    (analyze_output ("")).chars = 0 ∧
    (analyze_output ("")).words = 0 ∧
    (analyze_output ("")).lines = 1 := by
  decide

/-- Claim C1 (amended): `analyze_output` rejects — status `"failed"` with
zero character, word and line counts and a cleared equation flag — exactly
when the output text starts with `"ERROR"` or equals `"TIMEOUT"`; any other
text, including the empty or implausibly short one, is given status
`"success"`. -/
theorem analyze_rejects_only_sentinels (text : String) :
    ((startswith text ("ERROR") = true ∨ text = ("TIMEOUT")) →
      analyze_output text = ⟨("failed"), 0, 0, 0, false⟩) ∧
    ((startswith text ("ERROR") = false ∧ text ≠ ("TIMEOUT")) →
      (analyze_output text).status = ("success")) := by
  constructor
  · intro h
    unfold analyze_output
    rw [if_pos h]
  · intro h
    rw [analyze_output_success text h.1 h.2]

/-- Witness for `analyze_rejects_only_sentinels` at the concrete inputs
`"TIMEOUT"` and `"hi"`. -/
theorem analyze_rejects_only_sentinels_witness :
    analyze_output ("TIMEOUT") = ⟨("failed"), 0, 0, 0, false⟩ ∧
    (analyze_output ("hi")).status = ("success") :=
  ⟨(analyze_rejects_only_sentinels ("TIMEOUT")).1 (Or.inr rfl),
    (analyze_rejects_only_sentinels ("hi")).2 ⟨by decide, by decide⟩⟩

/- ------------------------------------------------------------------
Claim C2
------------------------------------------------------------------ -/

/-- Claim C2 counterexample: on the non-rejected text `"hello world"` the
quality check reports the raw character count 11, which lies outside `[0,1]`;
the analysis record carries only a status, the three raw counts and a boolean
flag — no single numeric score bounded in `[0,1]` is computed, and the
equation-marker test is unconditional (no detected-feature gating). -/
theorem analyze_output_no_bounded_score :
    (analyze_output ("hello world")).status = ("success") ∧
    (analyze_output ("hello world")).chars = 11 ∧
    ¬((analyze_output ("hello world")).chars ≤ 1) := by
  decide

/-- Claim C2 (amended): for every non-rejected output text the check reports
status `"success"` together with raw counts, not a bounded score: the `chars`
field equals the text's length and ranges over all of `ℕ` (so it is not
bounded in `[0,1]`), and the equation-marker flag is set exactly when the
text contains one of the marker characters, unconditionally. -/
theorem analyze_reports_raw_counts (text : String)
    (h : startswith text ("ERROR") = false ∧ text ≠ ("TIMEOUT")) :
    (analyze_output text).status = ("success") ∧
    (analyze_output text).chars = text.length ∧
    (analyze_output text).has_equations = equation_chars.any (fun c => text.toList.contains c) ∧
    ∀ n : Nat, ∃ t : String,
      (analyze_output t).status = ("success") ∧ (analyze_output t).chars = n := by
  rw [analyze_output_success text h.1 h.2]
  refine ⟨rfl, rfl, rfl, ?_⟩
  intro n
  refine ⟨String.mk (List.replicate n ('a')), ?_, ?_⟩
  · rw [analyze_output_success _ (replicate_not_error n) (replicate_not_timeout n)]
  · rw [analyze_output_success _ (replicate_not_error n) (replicate_not_timeout n)]
    simp [String.length]

/-- Witness for `analyze_reports_raw_counts` at the concrete input
`"hello"`. -/
theorem analyze_reports_raw_counts_witness :
    (analyze_output ("hello")).status = ("success") ∧
    (analyze_output ("hello")).chars = ("hello").length ∧
    (analyze_output ("hello")).has_equations
      = equation_chars.any (fun c => ("hello").toList.contains c) ∧
    ∀ n : Nat, ∃ t : String,
      (analyze_output t).status = ("success") ∧ (analyze_output t).chars = n :=
  analyze_reports_raw_counts ("hello") ⟨by decide, by decide⟩

/- ------------------------------------------------------------------
Claim C8
------------------------------------------------------------------ -/

/-- Claim C8: `aspect_ratio` is total — its divisor `max(height, 1)` is
always positive — and a page of height 0 gets an aspect ratio equal to its
width instead of a division-by-zero error. -/
theorem aspect_ratio_never_divides_by_zero (p : PageImage) (h : p.height = 0) :
    aspect_ratio p = (p.width : ℚ) ∧ ∀ q : PageImage, 0 < max q.height 1 := by
  constructor
  · unfold aspect_ratio
    rw [h]
    norm_num
  · intro q
    exact lt_max_of_lt_right Nat.one_pos

/-- Witness for `aspect_ratio_never_divides_by_zero` at a concrete page of
width 5 and height 0. -/
theorem aspect_ratio_never_divides_by_zero_witness :
    aspect_ratio ⟨1, none, 5, 0⟩ = ((5 : Nat) : ℚ) ∧ ∀ q : PageImage, 0 < max q.height 1 :=
  aspect_ratio_never_divides_by_zero ⟨1, none, 5, 0⟩ rfl

/- ------------------------------------------------------------------
Claim C9
------------------------------------------------------------------ -/

/-- Claim C9: constructing a `Document` with a path that does not exist on
the filesystem succeeds, its reported `size_mb` is 0, and a string path is
converted to a `Path` object during construction. -/
theorem missing_path_construction (fs : String → Option Nat) (p : PathLike) (s : String)
    (h : fs (to_py_path p).s = none) :
    (Document.size_mb (mk_document fs p [] DocumentType.general [])).1 = 0 ∧
    (mk_document fs (PathLike.str s) [] DocumentType.general []).path = PyPath.mk s := by
  constructor
  · unfold Document.size_mb mk_document
    simp [h]
  · rfl

/-- Witness for `missing_path_construction` on an empty filesystem and the
string path `"missing.pdf"`. -/
theorem missing_path_construction_witness :
    (Document.size_mb (mk_document (fun _ => none) (PathLike.str ("missing.pdf")) []
      DocumentType.general [])).1 = 0 ∧
    (mk_document (fun _ => none) (PathLike.str ("missing.pdf")) []
      DocumentType.general []).path = PyPath.mk ("missing.pdf") :=
  missing_path_construction (fun _ => none) (PathLike.str ("missing.pdf")) ("missing.pdf") rfl

/- ------------------------------------------------------------------
Claim C3
------------------------------------------------------------------ -/

/-- Claim C3: temporary artifacts are cleaned up on every exit path of both
process-based invocations.  For `test_ollama_ocr` the temporary page-image
file is unlinked whatever the outcome (success, non-zero return code, raised
exception, or timeout); for `test_nougat_cli` no path under the temporary
directory survives the call for any outcome. -/
theorem tmp_artifacts_cleaned (fs : List String) (tmp_name tmpdir stem : String)
    (produced : List (String × String)) (outcome : RunOutcome) (elapsed : ℚ)
    (h : tmp_name ∉ fs) :
    tmp_name ∉ (test_ollama_ocr fs tmp_name outcome elapsed).2 ∧
    ∀ q ∈ (test_nougat_cli fs tmpdir stem produced outcome elapsed).2,
      startswith q tmpdir = false := by
  constructor
  · cases outcome with
    | completed rc out err => simpa [test_ollama_ocr] using h
    | timedOut => simpa [test_ollama_ocr] using h
    | excRaised msg => simpa [test_ollama_ocr] using h
  · intro q hq
    simp only [test_nougat_cli, List.mem_filter, Bool.not_eq_true'] at hq
    exact hq.2

/-- Witness for `tmp_artifacts_cleaned` on an empty starting filesystem with
a timed-out invocation. -/
theorem tmp_artifacts_cleaned_witness :
    ("t.png") ∉ (test_ollama_ocr [] ("t.png") RunOutcome.timedOut 0).2 ∧
    ∀ q ∈ (test_nougat_cli [] ("tmpd") ("doc") [] RunOutcome.timedOut 0).2,
      startswith q ("tmpd") = false :=
  tmp_artifacts_cleaned [] ("t.png") ("tmpd") ("doc") [] RunOutcome.timedOut 0 (by decide)

/- ------------------------------------------------------------------
Claim C4
------------------------------------------------------------------ -/

/-- An `"ERROR: "`-prefixed message starts with `"ERROR:"`. -/
theorem error_message_has_error_prefix (err : String) :
    startswith (("ERROR: ") ++ err) (("ERROR:")) = true := by
  unfold startswith
  have h1 : (("ERROR: ") ++ err).toList = ("ERROR: ").toList ++ err.toList := rfl
  have h2 : ("ERROR:").toList = ['E', 'R', 'R', 'O', 'R', ':'] := rfl
  have h3 : ("ERROR: ").toList = ['E', 'R', 'R', 'O', 'R', ':', ' '] := rfl
  rw [h1, h2, h3]
  simp [List.isPrefixOf]

/-- Claim C4: a backend exceeding the 120-second budget makes both
invocations return the sentinel `("TIMEOUT", 120.0)` instead of propagating
the timeout exception, and a backend process returning a non-zero code makes
them return an `"ERROR:"`-prefixed text (here `"ERROR: " ++ stderr`) with
the measured elapsed time instead of raising. -/
theorem timeout_and_failure_outcomes (fs : List String) (tmp_name tmpdir stem : String)
    (produced : List (String × String)) (elapsed : ℚ) (rc : Int) (out err : String)
    (h : rc ≠ 0) :
    (test_ollama_ocr fs tmp_name RunOutcome.timedOut elapsed).1 = (("TIMEOUT"), (120 : ℚ)) ∧
    (test_nougat_cli fs tmpdir stem produced RunOutcome.timedOut elapsed).1
      = (("TIMEOUT"), (120 : ℚ)) ∧
    (test_ollama_ocr fs tmp_name (RunOutcome.completed rc out err) elapsed).1
      = ((("ERROR: ") ++ err), elapsed) ∧
    (test_nougat_cli fs tmpdir stem produced (RunOutcome.completed rc out err) elapsed).1
      = ((("ERROR: ") ++ err), elapsed) ∧
    startswith (("ERROR: ") ++ err) (("ERROR:")) = true := by
  refine ⟨rfl, rfl, ?_, ?_, error_message_has_error_prefix err⟩
  · simp [test_ollama_ocr, if_pos h]
  · simp [test_nougat_cli, nougat_result, if_pos h]

/-- Witness for `timeout_and_failure_outcomes` with return code 1 and
stderr `"boom"`. -/
theorem timeout_and_failure_outcomes_witness :
    (test_ollama_ocr [] ("t.png") RunOutcome.timedOut 3).1 = (("TIMEOUT"), (120 : ℚ)) ∧
    (test_nougat_cli [] ("tmpd") ("doc") [] RunOutcome.timedOut 3).1
      = (("TIMEOUT"), (120 : ℚ)) ∧
    (test_ollama_ocr [] ("t.png") (RunOutcome.completed 1 ("out") ("boom")) 3).1
      = ((("ERROR: ") ++ ("boom")), (3 : ℚ)) ∧
    (test_nougat_cli [] ("tmpd") ("doc") [] (RunOutcome.completed 1 ("out") ("boom")) 3).1
      = ((("ERROR: ") ++ ("boom")), (3 : ℚ)) ∧
    startswith (("ERROR: ") ++ ("boom")) (("ERROR:")) = true :=
  timeout_and_failure_outcomes [] ("t.png") ("tmpd") ("doc") [] 3 1 ("out") ("boom") (by decide)

/- ------------------------------------------------------------------
Helper lemmas about the `from_pdf` page loop
------------------------------------------------------------------ -/

/-- The page loop produces one `PageImage` per PDF page. -/
theorem render_pages_length (dpi : Nat) (l : List PdfPage) :
    ∀ i : Nat, (render_pages dpi i l).length = l.length := by
  induction l with
  | nil => intro i; rfl
  | cons pg rest ih => intro i; simp [render_pages, ih]

/-- The page at list position `j` of the loop started at `i` carries page
number `i + j + 1`. -/
theorem render_pages_get (dpi : Nat) (l : List PdfPage) :
    ∀ (i j : Nat) (hj : j < (render_pages dpi i l).length),
      ((render_pages dpi i l).get ⟨j, hj⟩).page_num = (i : Int) + (j : Int) + 1 := by
  induction l with
  | nil => intro i j hj; simp [render_pages] at hj
  | cons pg rest ih =>
    intro i j hj
    cases j with
    | zero => simp [render_pages, mk_page_image]
    | succ k =>
      have hk : k < (render_pages dpi (i + 1) rest).length := by
        simp [render_pages] at hj
        simpa [render_pages_length] using hj
      have h2 := ih (i + 1) k hk
      simp only [render_pages, List.get_cons_succ]
      rw [h2]
      push_cast
      ring

/-- Searching the loop's output for a page number in range finds a page with
exactly that number. -/
theorem render_pages_find (dpi : Nat) (l : List PdfPage) :
    ∀ (i p : Nat), i + 1 ≤ p → p ≤ i + l.length →
      ∃ pg, (render_pages dpi i l).find? (fun q => q.page_num == (p : Int)) = some pg
        ∧ pg.page_num = (p : Int) := by
  induction l with
  | nil => intro i p h1 h2; simp at h2; omega
  | cons hd rest ih =>
    intro i p h1 h2
    by_cases hp : p = i + 1
    · subst hp
      refine ⟨mk_page_image ((i : Int) + 1) (some (hd.pixmap dpi)), ?_, ?_⟩
      · apply List.find?_cons_of_pos
        simp [mk_page_image]
      · simp [mk_page_image]
    · have h1' : (i + 1) + 1 ≤ p := by omega
      have h2' : p ≤ (i + 1) + rest.length := by simp at h2; omega
      obtain ⟨pg, hfind, hnum⟩ := ih (i + 1) p h1' h2'
      refine ⟨pg, ?_, hnum⟩
      show List.find? (fun q => q.page_num == (p : Int))
        (mk_page_image ((i : Int) + 1) (some (hd.pixmap dpi))
          :: render_pages dpi (i + 1) rest) = some pg
      rw [List.find?_cons_of_neg, hfind]
      simp [mk_page_image]
      intro hc
      apply hp
      omega

/-- Every page produced by the loop has a positive page number and carries
the pixel dimensions of its rendered image. -/
theorem render_pages_mem (dpi : Nat) (l : List PdfPage) :
    ∀ (i : Nat) (q : PageImage), q ∈ render_pages dpi i l →
      1 ≤ q.page_num ∧
      ∃ img, q.image = some img ∧ q.width = img.width ∧ q.height = img.height := by
  induction l with
  | nil => intro i q hq; simp [render_pages] at hq
  | cons hd rest ih =>
    intro i q hq
    simp only [render_pages, List.mem_cons] at hq
    cases hq with
    | inl he =>
      subst he
      refine ⟨by simp [mk_page_image], hd.pixmap dpi, ?_, ?_, ?_⟩
      · simp [mk_page_image]
      · simp [mk_page_image]
      · simp [mk_page_image]
    | inr hm => exact ih (i + 1) q hm

/-- The pages field built by `from_pdf` is exactly the page loop's output. -/
theorem from_pdf_pages_eq (fs : String → Option Nat) (path : PathLike)
    (rd : RenderDpi) (pdf : Pdf) :
    (Document.from_pdf fs path rd pdf).pages
      = render_pages (resolve_dpi rd pdf) 0 pdf.pages := rfl

/- ------------------------------------------------------------------
Claim C5
------------------------------------------------------------------ -/

/-- Claim C5: a document built by `from_pdf` from an `n`-page PDF has exactly
`n` pages, the page at list position `j` has page number `j + 1` (so the page
numbers are exactly `1..n` in list order, unique and 1-indexed), and for
every `p` in `1..n`, `get_page p` returns a page whose `page_num` is `p`. -/
theorem from_pdf_page_accounting (fs : String → Option Nat) (path : PathLike)
    (rd : RenderDpi) (pdf : Pdf) :
    (Document.from_pdf fs path rd pdf).pages.length = pdf.pages.length ∧
    (∀ (j : Nat) (hj : j < (Document.from_pdf fs path rd pdf).pages.length),
      ((Document.from_pdf fs path rd pdf).pages.get ⟨j, hj⟩).page_num = (j : Int) + 1) ∧
    (∀ p : Nat, 1 ≤ p → p ≤ pdf.pages.length →
      ∃ pg, (Document.get_page (Document.from_pdf fs path rd pdf) (p : Int)).1 = some pg
        ∧ pg.page_num = (p : Int)) := by
  refine ⟨?_, ?_, ?_⟩
  · rw [from_pdf_pages_eq]
    exact render_pages_length _ pdf.pages 0
  · intro j hj
    have h := render_pages_get (resolve_dpi rd pdf) pdf.pages 0 j (by
      rw [from_pdf_pages_eq] at hj; exact hj)
    simpa [from_pdf_pages_eq] using h
  · intro p h1 h2
    have h := render_pages_find (resolve_dpi rd pdf) pdf.pages 0 p (by omega) (by omega)
    obtain ⟨pg, hfind, hnum⟩ := h
    exact ⟨pg, by simpa [Document.get_page, from_pdf_pages_eq] using hfind, hnum⟩

/-- Witness for `from_pdf_page_accounting` on a concrete one-page PDF. -/
theorem from_pdf_page_accounting_witness :
    (Document.from_pdf (fun _ => none) (PathLike.str ("a.pdf")) (RenderDpi.explicit 150)
      ⟨[⟨1, 1, fun _ => ⟨10, 20⟩⟩]⟩).pages.length = 1 ∧
    ∃ pg, (Document.get_page (Document.from_pdf (fun _ => none) (PathLike.str ("a.pdf"))
        (RenderDpi.explicit 150) ⟨[⟨1, 1, fun _ => ⟨10, 20⟩⟩]⟩) ((1 : Nat) : Int)).1 = some pg
      ∧ pg.page_num = ((1 : Nat) : Int) :=
  ⟨(from_pdf_page_accounting (fun _ => none) (PathLike.str ("a.pdf")) (RenderDpi.explicit 150)
      ⟨[⟨1, 1, fun _ => ⟨10, 20⟩⟩]⟩).1,
    (from_pdf_page_accounting (fun _ => none) (PathLike.str ("a.pdf")) (RenderDpi.explicit 150)
      ⟨[⟨1, 1, fun _ => ⟨10, 20⟩⟩]⟩).2.2 1 (by decide) (by decide)⟩

/- ------------------------------------------------------------------
Claim C6
------------------------------------------------------------------ -/

/-- Claim C6: every `PageImage` built by `from_pdf` has `page_num ≥ 1` and
carries, from construction time, the pixel dimensions of its underlying
image; `aspect_ratio` and `is_landscape` read only the stored width and
height fields, so they agree on any two pages with the same stored fields. -/
theorem page_image_construction (fs : String → Option Nat) (path : PathLike)
    (rd : RenderDpi) (pdf : Pdf) (q : PageImage)
    (h : q ∈ (Document.from_pdf fs path rd pdf).pages) :
    1 ≤ q.page_num ∧
    (∃ img, q.image = some img ∧ q.width = img.width ∧ q.height = img.height) ∧
    (∀ r : PageImage, r.width = q.width → r.height = q.height →
      aspect_ratio r = aspect_ratio q ∧ is_landscape r = is_landscape q) := by
  have h' : q ∈ render_pages (resolve_dpi rd pdf) 0 pdf.pages := by
    rw [from_pdf_pages_eq] at h; exact h
  obtain ⟨h1, h2⟩ := render_pages_mem (resolve_dpi rd pdf) pdf.pages 0 q h'
  refine ⟨h1, h2, ?_⟩
  intro r hw hh
  constructor
  · unfold aspect_ratio
    rw [hw, hh]
  · unfold is_landscape
    rw [hw, hh]

/-- Witness for `page_image_construction` on the single page of a concrete
PDF rendered to a 10 by 20 pixmap. -/
theorem page_image_construction_witness :
    1 ≤ (mk_page_image 1 (some ⟨10, 20⟩)).page_num ∧
    (∃ img, (mk_page_image 1 (some ⟨10, 20⟩)).image = some img ∧
      (mk_page_image 1 (some ⟨10, 20⟩)).width = img.width ∧
      (mk_page_image 1 (some ⟨10, 20⟩)).height = img.height) ∧
    (∀ r : PageImage, r.width = (mk_page_image 1 (some ⟨10, 20⟩)).width →
      r.height = (mk_page_image 1 (some ⟨10, 20⟩)).height →
      aspect_ratio r = aspect_ratio (mk_page_image 1 (some ⟨10, 20⟩)) ∧
      is_landscape r = is_landscape (mk_page_image 1 (some ⟨10, 20⟩))) :=
  page_image_construction (fun _ => none) (PathLike.str ("a.pdf")) (RenderDpi.explicit 150)
    ⟨[⟨1, 1, fun _ => ⟨10, 20⟩⟩]⟩ (mk_page_image 1 (some ⟨10, 20⟩)) (by decide)

/- ------------------------------------------------------------------
Claim C7
------------------------------------------------------------------ -/

/-- Claim C7: `doc_type` is changed only by `classify` — `get_page`,
`filename`, `num_pages` and `size_mb` return the document with its
`doc_type` unchanged, construction post-processing keeps the `doc_type`
given to the constructor — and the `doc_type` held after a `classify` call
is always one of the four enum values academic / policy / financial /
general. -/
theorem doc_type_only_changed_by_classify (d : Document) (n : Int)
    (fs : String → Option Nat) (p : PathLike) (pgs : List PageImage)
    (dt : DocumentType) (feats : List String) :
    (Document.get_page d n).2.doc_type = d.doc_type ∧
    (Document.filename d).2.doc_type = d.doc_type ∧
    (Document.num_pages d).2.doc_type = d.doc_type ∧
    (Document.size_mb d).2.doc_type = d.doc_type ∧
    (mk_document fs p pgs dt feats).doc_type = dt ∧
    (Document.classify d).2.doc_type
      ∈ [DocumentType.academic, DocumentType.policy, DocumentType.financial,
          DocumentType.general] := by
  refine ⟨rfl, rfl, rfl, rfl, rfl, ?_⟩
  cases (Document.classify d).2.doc_type <;> simp

/- ------------------------------------------------------------------
Claim C10
------------------------------------------------------------------ -/

/-- Claim C10: re-running `classify` returns the same `DocumentType` as the
first call, and whenever a keyword group matches the filename, each call
appends another copy of the `<type>_filename` tag, so two calls leave the
feature list extended by two identical tags. -/
theorem classify_repeat_stable (d : Document) :
    (Document.classify (Document.classify d).2).1 = (Document.classify d).1 ∧
    (doc_matched d = true →
      ∃ tag, (Document.classify d).2.detected_features = d.detected_features ++ [tag] ∧
        (Document.classify (Document.classify d).2).2.detected_features
          = d.detected_features ++ [tag, tag]) := by
  by_cases h1 : acad_cond (lower_str (last_component d.path.s)) = true
  · constructor
    · simp [Document.classify, Document.filename, h1]
    · intro hm
      refine ⟨("academic_filename"), ?_, ?_⟩
      · simp [Document.classify, Document.filename, h1]
      · simp [Document.classify, Document.filename, h1]
  · by_cases h2 : policy_cond (lower_str (last_component d.path.s)) = true
    · constructor
      · simp [Document.classify, Document.filename, h1, h2]
      · intro hm
        refine ⟨("policy_filename"), ?_, ?_⟩
        · simp [Document.classify, Document.filename, h1, h2]
        · simp [Document.classify, Document.filename, h1, h2]
    · by_cases h3 : fin_cond (lower_str (last_component d.path.s)) = true
      · constructor
        · simp [Document.classify, Document.filename, h1, h2, h3]
        · intro hm
          refine ⟨("financial_filename"), ?_, ?_⟩
          · simp [Document.classify, Document.filename, h1, h2, h3]
          · simp [Document.classify, Document.filename, h1, h2, h3]
      · constructor
        · simp [Document.classify, Document.filename, h1, h2, h3]
        · intro hm
          simp [doc_matched, Document.filename, h1, h2, h3] at hm

/-- Witness for `classify_repeat_stable` on a concrete document whose
filename `paper.pdf` matches the academic keyword group. -/
theorem classify_repeat_stable_witness :
    (Document.classify (Document.classify (mk_document (fun _ => none)
        (PathLike.str ("paper.pdf")) [] DocumentType.general [])).2).1
      = (Document.classify (mk_document (fun _ => none)
        (PathLike.str ("paper.pdf")) [] DocumentType.general [])).1 ∧
    ∃ tag, (Document.classify (mk_document (fun _ => none)
        (PathLike.str ("paper.pdf")) [] DocumentType.general [])).2.detected_features
        = (mk_document (fun _ => none)
            (PathLike.str ("paper.pdf")) [] DocumentType.general []).detected_features ++ [tag] ∧
      (Document.classify (Document.classify (mk_document (fun _ => none)
          (PathLike.str ("paper.pdf")) [] DocumentType.general [])).2).2.detected_features
        = (mk_document (fun _ => none)
            (PathLike.str ("paper.pdf")) [] DocumentType.general []).detected_features
            ++ [tag, tag] :=
  ⟨(classify_repeat_stable (mk_document (fun _ => none)
      (PathLike.str ("paper.pdf")) [] DocumentType.general [])).1,
    (classify_repeat_stable (mk_document (fun _ => none)
      (PathLike.str ("paper.pdf")) [] DocumentType.general [])).2 (by decide)⟩
